import Mathlib

/-
Shallow embedding of the `emission` event-emitter package (emitter.go, the
version with `ListenerHandle`/`listenerRecord`/`RecoveryListener`).

Modelling choices, each tied to the source:
* `ListenerHandle` is `uint32` in the source; handles are modelled as `Nat`
  kept below `uint32Mod = 2^32`, and the counter increment
  `emitter.nextHandle = emitter.nextHandle + 1` is `(h + 1) % uint32Mod`.
* A listener value (`interface{}` turned into `reflect.Value`) is modelled by
  `GoValue`: either a function value (with an identity, and a flag saying
  whether calling it panics — covering both argument-count/type mismatch and
  a panic inside the listener body) or a non-function value (whose
  `reflect.Value.Call` always panics).
* The Go map `map[interface{}][]listenerRecord` is an association list from
  event keys (modelled as `Nat`) to record lists; map assignment is
  `updateAssoc`, map read is `lookupAssoc` (absent key reads as the zero
  value `[]` where the source indexes directly).
* The recovery hook `recoverer` is modelled by a `hasRecoverer : Bool` flag
  plus explicit traces of the `(event, listener, error)` triples the hook is
  invoked with.
* `Emit` spawns one goroutine per snapshotted record and waits on a
  WaitGroup.  `runUnits` executes those units in snapshot order — one
  sequential interleaving of the goroutines; the locked atomic sections
  (snapshot read, `RemoveListener`) are single steps.  A separate
  interleaving machine (`ConcState`/`execSched`) models two concurrent
  `Emit` calls for the concurrency claim.
* An unrecovered panic in a goroutine kills the Go process: modelled by a
  `crashed` flag that stops the remaining units.  In `EmitSync` the
  per-iteration `defer` recovers a panic at function level, so a recovered
  panic returns from `EmitSync`, skipping the remaining listeners; without a
  recoverer the panic unwinds `EmitSync` itself (also flagged `crashed`).
-/

namespace Emission

/-- Modulus of the `uint32` type of `ListenerHandle` (2^32). -/
def uint32Mod : Nat := 4294967296

/-- Model of a Go value passed as a listener: a function value carries an
identity `id` and whether `reflect.Value.Call` on it panics (argument
mismatch or a panic in its body); a non-function value is never callable. -/
inductive GoValue where
  | func (id : Nat) (panics : Bool)
  | nonFunc (id : Nat)
deriving DecidableEq, Repr

/-- Kind check `reflect.Func == fn.Kind()` from `addListener`. -/
def GoValue.isFunc : GoValue → Bool
  | .func _ _ => true
  | .nonFunc _ => false

/-- Identity of the underlying Go value (used to observe invocations). -/
def GoValue.idOf : GoValue → Nat
  | .func i _ => i
  | .nonFunc i => i

/-- Whether `fn.Call(values)` panics: always for a non-function value,
and for a function value exactly when its `panics` flag is set. -/
def GoValue.callPanics : GoValue → Bool
  | .func _ p => p
  | .nonFunc _ => true

/-- Errors observable through panics and the recovery hook. -/
inductive GoErr where
  | errNoneFunction
  | callPanic (listenerId : Nat)
deriving DecidableEq, Repr

/-- The `listenerRecord` struct: reflect value of the listener, its handle,
and the `isOnce` flag. -/
structure listenerRecord where
  fn : GoValue
  handle : Nat
  isOnce : Bool
deriving DecidableEq, Repr

/-- The `Emitter` struct: handle counter, events map, recovery hook
presence, and `maxListeners`. -/
structure Emitter where
  nextHandle : Nat
  events : List (Nat × List listenerRecord)
  hasRecoverer : Bool
  maxListeners : Int
deriving DecidableEq, Repr

/-- Go map read `emitter.events[event]` with its `ok` bit. -/
def lookupAssoc : List (Nat × List listenerRecord) → Nat → Option (List listenerRecord)
  | [], _ => none
  | (k, v) :: rest, e => if k = e then some v else lookupAssoc rest e

/-- Go map assignment `emitter.events[event] = recs`. -/
def updateAssoc : List (Nat × List listenerRecord) → Nat → List listenerRecord → List (Nat × List listenerRecord)
  | [], e, recs => [(e, recs)]
  | (k, v) :: rest, e, recs =>
    if k = e then (k, recs) :: rest else (k, v) :: updateAssoc rest e recs

/-- Map read with `ok` bit, on an emitter. -/
def lookupEvent (em : Emitter) (e : Nat) : Option (List listenerRecord) :=
  lookupAssoc em.events e

/-- Map read without the `ok` bit: an absent key reads as the zero value. -/
def getEvents (em : Emitter) (e : Nat) : List listenerRecord :=
  (lookupEvent em e).getD []

/-- Map assignment on an emitter. -/
def setEvent (em : Emitter) (e : Nat) (recs : List listenerRecord) : Emitter :=
  { em with events := updateAssoc em.events e recs }

/-- `NewEmitter`: empty events map, `DefaultMaxListeners = 10`, no hook. -/
def NewEmitter : Emitter :=
  { nextHandle := 0, events := [], hasRecoverer := false, maxListeners := 10 }

/-- Observable outcome of one `addListener` call: whether it panicked (and
with which error), the recovery-hook invocation if any, whether the
max-listeners warning was printed, the returned handle, and the new state. -/
structure AddOutcome where
  panicked : Bool
  panicErr : Option GoErr
  recovererCall : Option (Nat × GoValue × GoErr)
  warned : Bool
  handle : Nat
  state : Emitter
deriving DecidableEq, Repr

/-- `addListener(event, listener, isOnce)`: if the value is not a function
it panics with `ErrNoneFunction` when no recoverer is set, else invokes the
recoverer and continues; if the max-listeners cap is exceeded it only
prints a warning; then it increments the `uint32` handle counter, appends
the record and returns the new handle. -/
def addListener (em : Emitter) (e : Nat) (l : GoValue) (isOnce : Bool) : AddOutcome :=
  if !l.isFunc && !em.hasRecoverer then
    { panicked := true, panicErr := some GoErr.errNoneFunction, recovererCall := none,
      warned := false, handle := 0, state := em }
  else
    let recCall := if !l.isFunc then some (e, l, GoErr.errNoneFunction) else none
    let cur := getEvents em e
    let warned := (em.maxListeners != -1) && (decide (em.maxListeners < (cur.length : Int) + 1))
    let nh := (em.nextHandle + 1) % uint32Mod
    { panicked := false, panicErr := none, recovererCall := recCall, warned := warned,
      handle := nh,
      state := setEvent { em with nextHandle := nh } e (cur ++ [⟨l, nh, isOnce⟩]) }

/-- `AddListener` registers a plain listener. -/
def AddListener (em : Emitter) (e : Nat) (l : GoValue) : AddOutcome :=
  addListener em e l false

/-- `Once` registers a one-shot listener (`isOnce = true`). -/
def Once (em : Emitter) (e : Nat) (l : GoValue) : AddOutcome :=
  addListener em e l true

/-- `RemoveListener(event, handle)`: no-op when the event is unknown or its
list is empty; otherwise keeps exactly the records whose handle differs. -/
def RemoveListener (em : Emitter) (e : Nat) (h : Nat) : Emitter :=
  match lookupEvent em e with
  | none => em
  | some recs =>
    if recs.length = 0 then em
    else setEvent em e (recs.filter (fun r => r.handle != h))

/-- `SetMaxListeners`. -/
def SetMaxListeners (em : Emitter) (max : Int) : Emitter :=
  { em with maxListeners := max }

/-- `RecoverWith` installs the recovery hook. -/
def RecoverWith (em : Emitter) : Emitter :=
  { em with hasRecoverer := true }

/-- `GetListenerCount(event)`: 0 for an unknown event, else the length. -/
def GetListenerCount (em : Emitter) (e : Nat) : Nat :=
  (getEvents em e).length

/-- Outcome of one listener goroutine body in `Emit`: the state after its
(locked) once-removal, the listener id if the call completed normally, the
recovery-hook invocation if the call panicked with a recoverer installed,
and `crashed` for an unrecovered panic (which kills the process). -/
structure UnitOutcome where
  state : Emitter
  invokedId : Option Nat
  recCall : Option (Nat × GoValue × GoErr)
  crashed : Bool
deriving DecidableEq, Repr

/-- One goroutine body of `Emit`: the recoverer presence is read first (the
`defer` is registered before anything else), then the once-removal runs
under the lock, then `fn.Call(values)` runs unlocked. -/
def runListenerUnit (em : Emitter) (e : Nat) (rec : listenerRecord) : UnitOutcome :=
  let em1 := if rec.isOnce then RemoveListener em e rec.handle else em
  if rec.fn.callPanics then
    if em.hasRecoverer then
      { state := em1, invokedId := none,
        recCall := some (e, rec.fn, GoErr.callPanic rec.fn.idOf), crashed := false }
    else
      { state := em1, invokedId := none, recCall := none, crashed := true }
  else
    { state := em1, invokedId := some rec.fn.idOf, recCall := none, crashed := false }

/-- Observable outcome of a whole `Emit`/`EmitSync` call. -/
structure EmitOutcome where
  state : Emitter
  invoked : List Nat
  recCalls : List (Nat × GoValue × GoErr)
  crashed : Bool
deriving DecidableEq, Repr

/-- The goroutines of one `Emit`, executed in snapshot order (one
sequential interleaving); an unrecovered panic crashes the process, so the
remaining units do not run. -/
def runUnits (em : Emitter) (e : Nat) : List listenerRecord → EmitOutcome
  | [] => { state := em, invoked := [], recCalls := [], crashed := false }
  | rec :: rest =>
    let u := runListenerUnit em e rec
    if u.crashed then
      { state := u.state, invoked := [], recCalls := [], crashed := true }
    else
      let r := runUnits u.state e rest
      { state := r.state, invoked := u.invokedId.toList ++ r.invoked,
        recCalls := u.recCall.toList ++ r.recCalls, crashed := r.crashed }

/-- `Emit(event, ...)`: unknown event is a no-op; otherwise the listener
list is snapshotted under the lock and each record is dispatched as a
goroutine, waited on by the WaitGroup. -/
def Emit (em : Emitter) (e : Nat) : EmitOutcome :=
  match lookupEvent em e with
  | none => { state := em, invoked := [], recCalls := [], crashed := false }
  | some snapshot => runUnits em e snapshot

/-- The loop body chain of `EmitSync`: records run strictly in order on the
caller's context.  A panicking call with a recoverer installed is caught by
the deferred `recover` at function level, so `EmitSync` returns immediately
and the remaining records are skipped; without a recoverer the panic
unwinds the `EmitSync` call (`crashed`). -/
def runSyncUnits (em : Emitter) (e : Nat) : List listenerRecord → EmitOutcome
  | [] => { state := em, invoked := [], recCalls := [], crashed := false }
  | rec :: rest =>
    let em1 := if rec.isOnce then RemoveListener em e rec.handle else em
    if rec.fn.callPanics then
      if em.hasRecoverer then
        { state := em1, invoked := [],
          recCalls := [(e, rec.fn, GoErr.callPanic rec.fn.idOf)], crashed := false }
      else
        { state := em1, invoked := [], recCalls := [], crashed := true }
    else
      let r := runSyncUnits em1 e rest
      { state := r.state, invoked := rec.fn.idOf :: r.invoked,
        recCalls := r.recCalls, crashed := r.crashed }

/-- `EmitSync(event, ...)`: unknown event is a no-op; otherwise the
snapshotted records run synchronously in registration order. -/
def EmitSync (em : Emitter) (e : Nat) : EmitOutcome :=
  match lookupEvent em e with
  | none => { state := em, invoked := [], recCalls := [], crashed := false }
  | some snapshot => runSyncUnits em e snapshot

/-- State of two concurrent `Emit` calls on the same emitter: the shared
emitter, each call's snapshot once its locked read has executed, and the
ids of the calls performed so far. -/
structure ConcState where
  em : Emitter
  snap1 : Option (List listenerRecord)
  snap2 : Option (List listenerRecord)
  calls : List Nat
deriving DecidableEq, Repr

/-- Atomic steps of the two concurrent `Emit` calls: `read1`/`read2` are
the locked snapshot reads; `unit1 i`/`unit2 i` run goroutine `i` of the
respective snapshot (its once-removal, which is locked, and its call). -/
inductive ConcStep where
  | read1 : ConcStep
  | read2 : ConcStep
  | unit1 : Nat → ConcStep
  | unit2 : Nat → ConcStep
deriving DecidableEq, Repr

/-- Run goroutine `i` of a snapshot against the shared state. -/
def applyUnit (e : Nat) (s : ConcState) (snap : Option (List listenerRecord)) (i : Nat) : ConcState :=
  match snap with
  | none => s
  | some recs =>
    match recs.get? i with
    | none => s
    | some rec =>
      let u := runListenerUnit s.em e rec
      { s with em := u.state, calls := s.calls ++ u.invokedId.toList }

/-- One atomic step of the interleaving machine. -/
def execStep (e : Nat) (s : ConcState) : ConcStep → ConcState
  | ConcStep.read1 => { s with snap1 := lookupEvent s.em e }
  | ConcStep.read2 => { s with snap2 := lookupEvent s.em e }
  | ConcStep.unit1 i => applyUnit e s s.snap1 i
  | ConcStep.unit2 i => applyUnit e s s.snap2 i

/-- Execute a schedule (an interleaving of the two calls' atomic steps). -/
def execSched (e : Nat) (s : ConcState) : List ConcStep → ConcState
  | [] => s
  | st :: rest => execSched e (execStep e s st) rest

/-- A sequence of registrations (event, listener value, isOnce), returning
the handles handed out in order together with the final state. -/
def runRegs (em : Emitter) : List (Nat × GoValue × Bool) → List Nat × Emitter
  | [] => ([], em)
  | req :: rest =>
    let out := addListener em req.1 req.2.1 req.2.2
    let r := runRegs out.state rest
    (out.handle :: r.1, r.2)

/-- Shorthand for a callable listener value that does not panic. -/
def fnOk (i : Nat) : GoValue := GoValue.func i false

/-- Shorthand for a callable listener value whose invocation panics. -/
def fnBad (i : Nat) : GoValue := GoValue.func i true

/-- Fixture: recoverer installed, listeners ok(1), panicking(2), ok(3) on event 0. -/
def emRecABC : Emitter :=
  (AddListener (AddListener (AddListener (RecoverWith NewEmitter) 0 (fnOk 1)).state
    0 (fnBad 2)).state 0 (fnOk 3)).state

/-- Fixture: a single one-shot listener fnOk 7 on event 0 of a fresh emitter. -/
def emOnce7 : Emitter := (Once NewEmitter 0 (fnOk 7)).state

/-- Fixture: two plain listeners fnOk 1 and fnOk 2 on event 0 of a fresh emitter. -/
def emTwo : Emitter :=
  (AddListener (AddListener NewEmitter 0 (fnOk 1)).state 0 (fnOk 2)).state

end Emission

namespace Emission

/-! ### Basic lemmas about the events map -/

theorem lookupAssoc_updateAssoc_self (l : List (Nat × List listenerRecord)) (e : Nat)
    (recs : List listenerRecord) :
    lookupAssoc (updateAssoc l e recs) e = some recs := by
  induction l with
  | nil => simp [updateAssoc, lookupAssoc]
  | cons p rest ih =>
    by_cases h : p.1 = e <;>
      simp [updateAssoc, lookupAssoc, h, ih]

theorem lookupAssoc_updateAssoc_ne (l : List (Nat × List listenerRecord)) (e e2 : Nat)
    (recs : List listenerRecord) (h : e ≠ e2) :
    lookupAssoc (updateAssoc l e recs) e2 = lookupAssoc l e2 := by
  induction l with
  | nil => simp [updateAssoc, lookupAssoc, h]
  | cons p rest ih =>
    by_cases hp : p.1 = e
    · subst hp
      simp [updateAssoc, lookupAssoc, h]
    · simp [updateAssoc, lookupAssoc, hp, ih]

theorem lookupEvent_setEvent_self (em : Emitter) (e : Nat) (recs : List listenerRecord) :
    lookupEvent (setEvent em e recs) e = some recs :=
  lookupAssoc_updateAssoc_self em.events e recs

theorem lookupEvent_setEvent_ne (em : Emitter) (e e2 : Nat) (recs : List listenerRecord)
    (h : e ≠ e2) :
    lookupEvent (setEvent em e recs) e2 = lookupEvent em e2 :=
  lookupAssoc_updateAssoc_ne em.events e e2 recs h

theorem getEvents_setEvent_self (em : Emitter) (e : Nat) (recs : List listenerRecord) :
    getEvents (setEvent em e recs) e = recs := by
  simp [getEvents, lookupEvent_setEvent_self]

theorem getEvents_setEvent_ne (em : Emitter) (e e2 : Nat) (recs : List listenerRecord)
    (h : e ≠ e2) :
    getEvents (setEvent em e recs) e2 = getEvents em e2 := by
  simp [getEvents, lookupEvent_setEvent_ne em e e2 recs h]

theorem getEvents_eq_nil_of_count_zero (em : Emitter) (e : Nat)
    (h : GetListenerCount em e = 0) : getEvents em e = [] := by
  simpa [GetListenerCount, List.length_eq_zero] using h

/-! ### Lemmas about addListener -/

theorem addListener_not_panicked (em : Emitter) (e : Nat) (v : GoValue) (o : Bool)
    (h : (!v.isFunc && !em.hasRecoverer) = false) :
    (addListener em e v o).panicked = false := by
  simp [addListener, h]

theorem addListener_handle (em : Emitter) (e : Nat) (v : GoValue) (o : Bool)
    (h : (!v.isFunc && !em.hasRecoverer) = false) :
    (addListener em e v o).handle = (em.nextHandle + 1) % uint32Mod := by
  simp [addListener, h]

theorem addListener_state_nextHandle (em : Emitter) (e : Nat) (v : GoValue) (o : Bool)
    (h : (!v.isFunc && !em.hasRecoverer) = false) :
    (addListener em e v o).state.nextHandle = (em.nextHandle + 1) % uint32Mod := by
  simp [addListener, h, setEvent]

theorem addListener_state_events_self (em : Emitter) (e : Nat) (v : GoValue) (o : Bool)
    (h : (!v.isFunc && !em.hasRecoverer) = false) :
    getEvents (addListener em e v o).state e =
      getEvents em e ++ [⟨v, (em.nextHandle + 1) % uint32Mod, o⟩] := by
  simp [addListener, h, getEvents_setEvent_self]

theorem addListener_state_lookup_self (em : Emitter) (e : Nat) (v : GoValue) (o : Bool)
    (h : (!v.isFunc && !em.hasRecoverer) = false) :
    lookupEvent (addListener em e v o).state e =
      some (getEvents em e ++ [⟨v, (em.nextHandle + 1) % uint32Mod, o⟩]) := by
  simp [addListener, h, lookupEvent_setEvent_self]

theorem addListener_state_hasRecoverer (em : Emitter) (e : Nat) (v : GoValue) (o : Bool)
    (h : (!v.isFunc && !em.hasRecoverer) = false) :
    (addListener em e v o).state.hasRecoverer = em.hasRecoverer := by
  simp [addListener, h, setEvent]

/-! ### Lemmas about RemoveListener -/

theorem RemoveListener_hasRecoverer (em : Emitter) (e h : Nat) :
    (RemoveListener em e h).hasRecoverer = em.hasRecoverer := by
  unfold RemoveListener
  cases lookupEvent em e with
  | none => rfl
  | some recs =>
    by_cases hl : recs.length = 0 <;> simp [hl, setEvent]

theorem runListenerUnit_state_hasRecoverer (em : Emitter) (e : Nat) (rec : listenerRecord) :
    (runListenerUnit em e rec).state.hasRecoverer = em.hasRecoverer := by
  unfold runListenerUnit
  by_cases ho : rec.isOnce <;> by_cases hp : rec.fn.callPanics = true <;>
    by_cases hr : em.hasRecoverer = true <;>
    simp [ho, hp, hr, RemoveListener_hasRecoverer]

end Emission

namespace Emission

/-! ### Lemmas about the dispatch folds -/

theorem runUnits_no_panic (e : Nat) (recs : List listenerRecord)
    (h : ∀ r ∈ recs, r.fn.callPanics = false) (em : Emitter) :
    (runUnits em e recs).invoked = recs.map (fun r => r.fn.idOf) ∧
    (runUnits em e recs).crashed = false ∧
    (runUnits em e recs).recCalls = [] := by
  induction recs generalizing em with
  | nil => simp [runUnits]
  | cons rec rest ih =>
    have hrec : rec.fn.callPanics = false := h rec (List.mem_cons_self rec rest)
    have hrest : ∀ r ∈ rest, r.fn.callPanics = false :=
      fun r hr => h r (List.mem_cons_of_mem rec hr)
    simp [runUnits, runListenerUnit, hrec]
    exact ih hrest _

theorem runUnits_state_plain (e : Nat) (recs : List listenerRecord)
    (h : ∀ r ∈ recs, r.isOnce = false) (em : Emitter) :
    (runUnits em e recs).state = em := by
  induction recs generalizing em with
  | nil => simp [runUnits]
  | cons rec rest ih =>
    have hrec : rec.isOnce = false := h rec (List.mem_cons_self rec rest)
    have hrest : ∀ r ∈ rest, r.isOnce = false :=
      fun r hr => h r (List.mem_cons_of_mem rec hr)
    by_cases hp : rec.fn.callPanics = true <;>
      by_cases hr : em.hasRecoverer = true <;>
        simp [runUnits, runListenerUnit, hrec, hp, hr, ih hrest]

theorem runUnits_append_no_panic (e : Nat) (xs ys : List listenerRecord)
    (hx : ∀ r ∈ xs, r.fn.callPanics = false) (em : Emitter) :
    (runUnits em e (xs ++ ys)).invoked =
      (runUnits em e xs).invoked ++ (runUnits (runUnits em e xs).state e ys).invoked ∧
    (runUnits em e (xs ++ ys)).state = (runUnits (runUnits em e xs).state e ys).state ∧
    (runUnits em e (xs ++ ys)).crashed = (runUnits (runUnits em e xs).state e ys).crashed := by
  induction xs generalizing em with
  | nil => simp [runUnits]
  | cons x xs ih =>
    have hx0 : x.fn.callPanics = false := hx x (List.mem_cons_self x xs)
    have hxs : ∀ r ∈ xs, r.fn.callPanics = false :=
      fun r hr => hx r (List.mem_cons_of_mem x hr)
    simp [runUnits, runListenerUnit, hx0]
    exact ih hxs _

theorem runUnits_recoverer (e : Nat) (recs : List listenerRecord) (em : Emitter)
    (hr : em.hasRecoverer = true) :
    (runUnits em e recs).crashed = false ∧
    (runUnits em e recs).invoked =
      (recs.filter (fun r => !r.fn.callPanics)).map (fun r => r.fn.idOf) := by
  induction recs generalizing em with
  | nil => simp [runUnits]
  | cons rec rest ih =>
    have hr1 : (if rec.isOnce = true then RemoveListener em e rec.handle else em).hasRecoverer = true := by
      by_cases ho : rec.isOnce = true <;> simp [ho, RemoveListener_hasRecoverer, hr]
    by_cases hp : rec.fn.callPanics = true
    · simp [runUnits, runListenerUnit, hp, hr]
      exact ih _ hr1
    · simp at hp
      simp [runUnits, runListenerUnit, hp, hr]
      exact ih _ hr1

theorem runSyncUnits_no_panic (e : Nat) (recs : List listenerRecord)
    (h : ∀ r ∈ recs, r.fn.callPanics = false) (em : Emitter) :
    (runSyncUnits em e recs).invoked = recs.map (fun r => r.fn.idOf) ∧
    (runSyncUnits em e recs).crashed = false := by
  induction recs generalizing em with
  | nil => simp [runSyncUnits]
  | cons rec rest ih =>
    have hrec : rec.fn.callPanics = false := h rec (List.mem_cons_self rec rest)
    have hrest : ∀ r ∈ rest, r.fn.callPanics = false :=
      fun r hr => h r (List.mem_cons_of_mem rec hr)
    by_cases ho : rec.isOnce = true <;>
      simp [runSyncUnits, hrec, ho, ih hrest]

theorem runSyncUnits_panic_stops (e : Nat) (pre : List listenerRecord)
    (bad : listenerRecord) (post : List listenerRecord) (em : Emitter)
    (hr : em.hasRecoverer = true)
    (hpre : ∀ r ∈ pre, r.fn.callPanics = false)
    (hbad : bad.fn.callPanics = true) :
    (runSyncUnits em e (pre ++ bad :: post)).crashed = false ∧
    (runSyncUnits em e (pre ++ bad :: post)).invoked = pre.map (fun r => r.fn.idOf) ∧
    (runSyncUnits em e (pre ++ bad :: post)).recCalls =
      [(e, bad.fn, GoErr.callPanic bad.fn.idOf)] := by
  induction pre generalizing em with
  | nil => simp [runSyncUnits, hbad, hr]
  | cons p pre ih =>
    have hp : p.fn.callPanics = false := hpre p (List.mem_cons_self p pre)
    have hpre2 : ∀ r ∈ pre, r.fn.callPanics = false :=
      fun r hrr => hpre r (List.mem_cons_of_mem p hrr)
    by_cases ho : p.isOnce = true
    · have hr1 : (RemoveListener em e p.handle).hasRecoverer = true := by
        rw [RemoveListener_hasRecoverer]; exact hr
      simp [runSyncUnits, hp, ho, ih (RemoveListener em e p.handle) hr1 hpre2]
    · simp [runSyncUnits, hp, ho, ih em hr hpre2]

end Emission

namespace Emission

/-! ### Claim C1 -/

/-- C1 counterexample: on a fresh emitter, `SetMaxListeners(0)` followed by
`AddListener` does NOT silently fail — the listener count changes from 0 to
1 and a subsequent `Emit` invokes the listener. -/
theorem c1_counterexample :
    GetListenerCount (AddListener (SetMaxListeners NewEmitter 0) 0 (fnOk 7)).state 0 = 1 ∧
    (Emit (AddListener (SetMaxListeners NewEmitter 0) 0 (fnOk 7)).state 0).invoked = [7] := by
  decide

/-- C1 amended: after `SetMaxListeners(0)`, `AddListener(E, fn)` with a
function value prints the max-listeners warning but still appends the
listener: it does not panic, `GetListenerCount(E)` increases by one, and a
subsequent `Emit(E)` invokes `fn`. -/
theorem c1_amended (em : Emitter) (e : Nat) (v : GoValue)
    (hf : v.isFunc = true) (hv : v.callPanics = false)
    (hall : ∀ r ∈ getEvents em e, r.fn.callPanics = false) :
    (AddListener (SetMaxListeners em 0) e v).warned = true ∧
    (AddListener (SetMaxListeners em 0) e v).panicked = false ∧
    GetListenerCount (AddListener (SetMaxListeners em 0) e v).state e =
      GetListenerCount em e + 1 ∧
    v.idOf ∈ (Emit (AddListener (SetMaxListeners em 0) e v).state e).invoked := by
  have hc : (!v.isFunc && !(SetMaxListeners em 0).hasRecoverer) = false := by
    simp [hf]
  have hget : getEvents (SetMaxListeners em 0) e = getEvents em e := by
    simp [getEvents, lookupEvent, SetMaxListeners]
  simp only [AddListener]
  refine ⟨?_, ?_, ?_, ?_⟩
  · simp [addListener, hc, hget, SetMaxListeners, hf]
  · exact addListener_not_panicked _ _ _ _ hc
  · rw [GetListenerCount, addListener_state_events_self _ _ _ _ hc, hget]
    simp [GetListenerCount]
  · have hlook := addListener_state_lookup_self (SetMaxListeners em 0) e v false hc
    rw [hget] at hlook
    have hall2 : ∀ r ∈ getEvents em e ++
        [(⟨v, ((SetMaxListeners em 0).nextHandle + 1) % uint32Mod, false⟩ : listenerRecord)],
        r.fn.callPanics = false := by
      intro r hr
      rcases List.mem_append.mp hr with h1 | h1
      · exact hall r h1
      · simp at h1
        subst h1
        exact hv
    have hrun := runUnits_no_panic e _ hall2 (addListener (SetMaxListeners em 0) e v false).state
    simp only [Emit, hlook]
    rw [hrun.1]
    refine List.mem_map.mpr ⟨⟨v, ((SetMaxListeners em 0).nextHandle + 1) % uint32Mod, false⟩, ?_, rfl⟩
    simp

/-- C1 witness: the amended theorem applied to a fresh emitter, event 0 and
the non-panicking function value `fnOk 7`. -/
theorem c1_amended_witness :
    (AddListener (SetMaxListeners NewEmitter 0) 0 (fnOk 7)).warned = true ∧
    (AddListener (SetMaxListeners NewEmitter 0) 0 (fnOk 7)).panicked = false ∧
    GetListenerCount (AddListener (SetMaxListeners NewEmitter 0) 0 (fnOk 7)).state 0 =
      GetListenerCount NewEmitter 0 + 1 ∧
    (fnOk 7).idOf ∈ (Emit (AddListener (SetMaxListeners NewEmitter 0) 0 (fnOk 7)).state 0).invoked :=
  c1_amended NewEmitter 0 (fnOk 7) (by decide) (by decide) (by decide)

/-! ### Claim C2 -/

/-- C2: the exactly-once guarantee for `Once` fails under two concurrent
`Emit` calls.  With a single one-shot listener (id 7) registered, the
interleaving in which both Emits take their locked snapshot before either
goroutine performs its removal invokes the listener twice: each goroutine
removes the (by then possibly absent) record and then calls the listener. -/
theorem c2_code_bug :
    (execSched 0 { em := emOnce7, snap1 := none, snap2 := none, calls := [] }
      [ConcStep.read1, ConcStep.read2, ConcStep.unit1 0, ConcStep.unit2 0]).calls = [7, 7] := by
  decide

/-! ### Claim C3 -/

/-- C3 counterexample: with a recovery hook installed and listeners
[ok(1), panicking(2), ok(3)] on event 0, `EmitSync` invokes only listener 1:
the recovered panic of listener 2 returns from `EmitSync` (the per-iteration
`defer` runs at function level), so sibling listener 3 of the same emission
is never invoked — contradicting the claim for `EmitSync`. -/
theorem c3_counterexample :
    (EmitSync emRecABC 0).invoked = [1] ∧ (EmitSync emRecABC 0).crashed = false := by
  decide

/-- C3 amended: with a recovery hook installed, a panic inside one listener
is caught locally in `Emit`: every non-panicking listener of the emission
is still invoked and the call returns normally.  In `EmitSync` the panic is
likewise caught, so the call returns normally instead of unwinding, but the
listeners after the faulting one in registration order are skipped — only
the listeners before it are invoked. -/
theorem c3_amended (em : Emitter) (e : Nat) (pre : List listenerRecord)
    (bad : listenerRecord) (post : List listenerRecord)
    (hr : em.hasRecoverer = true)
    (hlook : lookupEvent em e = some (pre ++ bad :: post))
    (hpre : ∀ r ∈ pre, r.fn.callPanics = false)
    (hbad : bad.fn.callPanics = true) :
    (Emit em e).crashed = false ∧
    (Emit em e).invoked =
      ((pre ++ bad :: post).filter (fun r => !r.fn.callPanics)).map (fun r => r.fn.idOf) ∧
    (EmitSync em e).crashed = false ∧
    (EmitSync em e).invoked = pre.map (fun r => r.fn.idOf) := by
  have hemit := runUnits_recoverer e (pre ++ bad :: post) em hr
  have hsync := runSyncUnits_panic_stops e pre bad post em hr hpre hbad
  rw [Emit, EmitSync, hlook]
  exact ⟨hemit.1, hemit.2, hsync.1, hsync.2.1⟩

/-- C3 witness: the amended theorem applied to the fixture emitter with
listeners ok(1), panicking(2), ok(3) and the hook installed. -/
theorem c3_witness :
    (Emit emRecABC 0).crashed = false ∧
    (Emit emRecABC 0).invoked =
      ((([⟨fnOk 1, 1, false⟩] ++ ⟨fnBad 2, 2, false⟩ :: [⟨fnOk 3, 3, false⟩]) :
        List listenerRecord).filter (fun r => !r.fn.callPanics)).map (fun r => r.fn.idOf) ∧
    (EmitSync emRecABC 0).crashed = false ∧
    (EmitSync emRecABC 0).invoked =
      ([⟨fnOk 1, 1, false⟩] : List listenerRecord).map (fun r => r.fn.idOf) :=
  c3_amended emRecABC 0 [⟨fnOk 1, 1, false⟩] ⟨fnBad 2, 2, false⟩ [⟨fnOk 3, 3, false⟩]
    (by decide) (by decide) (by decide) (by decide)

end Emission

namespace Emission

/-! ### Claim C4 -/

/-- C4 (confirmed): on an emitter whose existing listeners for `E` are
plain (not one-shot), non-panicking functions distinct from `fn` and from
the freshly allocated handle, `Once(E, fn)` followed by two sequential
`Emit(E)` calls invokes `fn` exactly once, and `GetListenerCount(E)` is
back to its pre-registration value once the first `Emit(E)` has returned. -/
theorem c4_once_exactly_once (em : Emitter) (e : Nat) (v : GoValue)
    (hf : v.isFunc = true) (hv : v.callPanics = false)
    (hcur : ∀ r ∈ getEvents em e,
      r.isOnce = false ∧ r.fn.callPanics = false ∧
      r.handle ≠ (em.nextHandle + 1) % uint32Mod ∧ r.fn.idOf ≠ v.idOf) :
    GetListenerCount (Emit (Once em e v).state e).state e = GetListenerCount em e ∧
    List.count v.idOf
      ((Emit (Once em e v).state e).invoked ++
        (Emit (Emit (Once em e v).state e).state e).invoked) = 1 := by
  have hc : (!v.isFunc && !em.hasRecoverer) = false := by simp [hf]
  have hlook1 : lookupEvent (Once em e v).state e =
      some (getEvents em e ++ [⟨v, (em.nextHandle + 1) % uint32Mod, true⟩]) := by
    simpa [Once] using addListener_state_lookup_self em e v true hc
  -- abbreviations
  set cur := getEvents em e with hcurdef
  set nh := (em.nextHandle + 1) % uint32Mod with hnh
  set rec0 : listenerRecord := ⟨v, nh, true⟩ with hrec0
  set em0 := (Once em e v).state with hem0
  -- the snapshot of the first Emit
  have hxs : ∀ r ∈ cur, r.fn.callPanics = false := fun r hr => (hcur r hr).2.1
  have happ := runUnits_append_no_panic e cur [rec0] hxs em0
  have hplain : (runUnits em0 e cur).state = em0 :=
    runUnits_state_plain e cur (fun r hr => (hcur r hr).1) em0
  have hinvcur : (runUnits em0 e cur).invoked = cur.map (fun r => r.fn.idOf) :=
    (runUnits_no_panic e cur hxs em0).1
  -- the once unit
  have hunit : runUnits em0 e [rec0] =
      { state := RemoveListener em0 e nh, invoked := [v.idOf], recCalls := [], crashed := false } := by
    simp [runUnits, runListenerUnit, hrec0, hv]
  -- removing the freshly added once record restores cur
  have hfilter : (cur ++ [rec0]).filter (fun r => r.handle != nh) = cur := by
    rw [List.filter_append]
    have h1 : cur.filter (fun r => r.handle != nh) = cur :=
      List.filter_eq_self.mpr (fun r hr => by
        simpa [bne_iff_ne] using (hcur r hr).2.2.1)
    have h2 : ([rec0] : List listenerRecord).filter (fun r => r.handle != nh) = [] := by
      simp [hrec0]
    rw [h1, h2, List.append_nil]
  have hrem : RemoveListener em0 e nh = setEvent em0 e cur := by
    rw [RemoveListener, hlook1]
    have hlen : (cur ++ [rec0]).length = 0 ↔ False := by simp
    simp only [List.length_append, List.length_singleton]
    rw [if_neg (by omega)]
    rw [hfilter]
  -- first emit
  have hemit1 : Emit em0 e =
      { state := setEvent em0 e cur,
        invoked := cur.map (fun r => r.fn.idOf) ++ [v.idOf],
        recCalls := (runUnits em0 e (cur ++ [rec0])).recCalls,
        crashed := false } := by
    rw [Emit, hlook1]
    have h1 := happ.1
    have h2 := happ.2.1
    have h3 := happ.2.2
    rw [hplain, hunit] at h1 h2 h3
    simp at h1 h2 h3
    rw [hrem] at h2
    cases hout : runUnits em0 e (cur ++ [rec0]) with
    | mk st inv rc cr =>
      rw [hout] at h1 h2 h3
      simp at h1 h2 h3
      simp [hout, h1, h2, h3, hinvcur]
  have hemit2 : (Emit (setEvent em0 e cur) e).invoked = cur.map (fun r => r.fn.idOf) := by
    rw [Emit, lookupEvent_setEvent_self]
    exact (runUnits_no_panic e cur hxs _).1
  have hnotmem : v.idOf ∉ cur.map (fun r => r.fn.idOf) := by
    intro hmem
    rcases List.mem_map.mp hmem with ⟨r, hr, hid⟩
    exact (hcur r hr).2.2.2 hid
  constructor
  · rw [hemit1]
    simp only [GetListenerCount, getEvents_setEvent_self]
  · rw [hemit1]
    simp only [hemit2]
    simp [List.count_append, List.count_eq_zero.mpr hnotmem]

/-- C4 witness: the theorem applied to a fresh emitter, event 0 and the
one-shot listener `fnOk 5`. -/
theorem c4_witness :
    GetListenerCount (Emit (Once NewEmitter 0 (fnOk 5)).state 0).state 0 =
      GetListenerCount NewEmitter 0 ∧
    List.count (fnOk 5).idOf
      ((Emit (Once NewEmitter 0 (fnOk 5)).state 0).invoked ++
        (Emit (Emit (Once NewEmitter 0 (fnOk 5)).state 0).state 0).invoked) = 1 :=
  c4_once_exactly_once NewEmitter 0 (fnOk 5) (by decide) (by decide) (by decide)

end Emission

namespace Emission

/-! ### Claim C5 -/

/-- Handle returned by the i-th registration of a sequence: the `uint32`
counter makes it `(nextHandle + i + 1) mod 2^32`. -/
theorem runRegs_get (reqs : List (Nat × GoValue × Bool))
    (hf : ∀ req ∈ reqs, req.2.1.isFunc = true) (em : Emitter) (i : Nat)
    (hi : i < reqs.length) :
    (runRegs em reqs).1.get? i = some ((em.nextHandle + i + 1) % uint32Mod) := by
  induction reqs generalizing em i with
  | nil => simp at hi
  | cons req rest ih =>
    have hreq : req.2.1.isFunc = true := hf req (List.mem_cons_self req rest)
    have hrest : ∀ r ∈ rest, r.2.1.isFunc = true :=
      fun r hr => hf r (List.mem_cons_of_mem req hr)
    have hc : (!req.2.1.isFunc && !em.hasRecoverer) = false := by simp [hreq]
    cases i with
    | zero =>
      simp [runRegs, addListener_handle _ _ _ _ hc]
    | succ i =>
      have hi2 : i < rest.length := by simpa using hi
      have := ih hrest (addListener em req.1 req.2.1 req.2.2).state i hi2
      rw [addListener_state_nextHandle _ _ _ _ hc] at this
      simp only [runRegs, List.get?_cons_succ]
      rw [this]
      congr 1
      simp only [uint32Mod]
      omega

/-- C5 counterexample: on a fresh emitter, a sequence of `2^32 + 1`
registrations returns handle 1 both for the first call and for the
`2^32 + 1`-th call: the `uint32` counter wraps, so the later call's handle
is not strictly greater than all earlier ones and the value 1 is reassigned
to another listener. -/
theorem c5_counterexample :
    (runRegs NewEmitter (List.replicate (uint32Mod + 1) (0, fnOk 0, false))).1.get? 0 =
      some 1 ∧
    (runRegs NewEmitter (List.replicate (uint32Mod + 1) (0, fnOk 0, false))).1.get?
      uint32Mod = some 1 := by
  have hf : ∀ req ∈ List.replicate (uint32Mod + 1) ((0 : Nat), fnOk 0, false),
      req.2.1.isFunc = true := by
    intro req hreq
    rw [List.eq_of_mem_replicate hreq]
    rfl
  constructor
  · rw [runRegs_get _ hf NewEmitter 0 (by simp)]
    decide
  · rw [runRegs_get _ hf NewEmitter uint32Mod (by simp)]
    decide

/-- C5 amended: on a fresh emitter, each registration returns the previous
handle plus one modulo 2^32, so handles are strictly increasing and unique
as long as the sequence stays below 2^32 registrations (afterwards the
32-bit counter wraps and handle values repeat). -/
theorem c5_amended (reqs : List (Nat × GoValue × Bool))
    (hf : ∀ req ∈ reqs, req.2.1.isFunc = true)
    (i j : Nat) (hij : i < j) (hj : j < reqs.length) (hwrap : j + 1 < uint32Mod) :
    (runRegs NewEmitter reqs).1.get? i = some (i + 1) ∧
    (runRegs NewEmitter reqs).1.get? j = some (j + 1) ∧
    i + 1 < j + 1 := by
  have hi : i < reqs.length := lt_trans hij hj
  have h1 := runRegs_get reqs hf NewEmitter i hi
  have h2 := runRegs_get reqs hf NewEmitter j hj
  have hnh : NewEmitter.nextHandle = 0 := rfl
  rw [hnh] at h1 h2
  have e1 : (0 + i + 1) % uint32Mod = i + 1 := by
    simp only [uint32Mod] at hwrap ⊢
    omega
  have e2 : (0 + j + 1) % uint32Mod = j + 1 := by
    simp only [uint32Mod] at hwrap ⊢
    omega
  rw [e1] at h1
  rw [e2] at h2
  exact ⟨h1, h2, by omega⟩

/-- C5 witness: three registrations on a fresh emitter return handles 1 and
3 at positions 0 and 2, strictly increasing. -/
theorem c5_amended_witness :
    (runRegs NewEmitter [(0, fnOk 1, false), (0, fnOk 2, true), (1, fnOk 3, false)]).1.get? 0 =
      some 1 ∧
    (runRegs NewEmitter [(0, fnOk 1, false), (0, fnOk 2, true), (1, fnOk 3, false)]).1.get? 2 =
      some 3 ∧
    0 + 1 < 2 + 1 :=
  c5_amended [(0, fnOk 1, false), (0, fnOk 2, true), (1, fnOk 3, false)]
    (by decide) 0 2 (by decide) (by decide) (by decide)

/-! ### Claim C6 -/

/-- C6 (confirmed): after `AddListener(E, fn)` on an emitter with no
listeners for `E`, removing the returned handle leaves
`GetListenerCount(E) = 0`; `RemoveListener` on an unknown event is a no-op
returning the emitter unchanged; and `RemoveListener` with a handle not
present on the event changes no listener count of any event. -/
theorem c6_remove_exact_idempotent (em : Emitter) (e : Nat) (v : GoValue)
    (eu hu : Nat) (e4 h4 e5 : Nat)
    (hf : v.isFunc = true) (h0 : GetListenerCount em e = 0)
    (hnone : lookupEvent em eu = none)
    (hh : ∀ r ∈ getEvents em e4, r.handle ≠ h4) :
    GetListenerCount
      (RemoveListener (AddListener em e v).state e (AddListener em e v).handle) e = 0 ∧
    RemoveListener em eu hu = em ∧
    GetListenerCount (RemoveListener em e4 h4) e5 = GetListenerCount em e5 := by
  have hc : (!v.isFunc && !em.hasRecoverer) = false := by simp [hf]
  refine ⟨?_, ?_, ?_⟩
  · have hnil : getEvents em e = [] := getEvents_eq_nil_of_count_zero em e h0
    have hlook := addListener_state_lookup_self em e v false hc
    rw [hnil] at hlook
    have hhandle := addListener_handle em e v false hc
    simp only [AddListener]
    rw [RemoveListener, hlook, hhandle]
    simp [GetListenerCount, getEvents_setEvent_self]
  · simp [RemoveListener, hnone]
  · cases hlk : lookupEvent em e4 with
    | none => simp [RemoveListener, hlk]
    | some recs =>
      by_cases hlen : recs.length = 0
      · simp [RemoveListener, hlk, hlen]
      · have hget : getEvents em e4 = recs := by simp [getEvents, hlk]
        have hfe : recs.filter (fun r => r.handle != h4) = recs :=
          List.filter_eq_self.mpr (fun r hr => by
            rw [hget] at hh
            simpa [bne_iff_ne] using hh r hr)
        rw [RemoveListener, hlk]
        simp only [hlen, if_false, hfe]
        by_cases he : e4 = e5
        · subst he
          simp [GetListenerCount, getEvents_setEvent_self, hget]
        · simp [GetListenerCount, getEvents_setEvent_ne em e4 e5 recs he]

/-- C6 witness: the theorem applied to a fresh emitter (add then remove on
event 0; remove on the unknown event 5; remove of the unknown handle 42). -/
theorem c6_witness :
    GetListenerCount
      (RemoveListener (AddListener NewEmitter 0 (fnOk 1)).state 0
        (AddListener NewEmitter 0 (fnOk 1)).handle) 0 = 0 ∧
    RemoveListener NewEmitter 5 9 = NewEmitter ∧
    GetListenerCount (RemoveListener NewEmitter 0 42) 0 = GetListenerCount NewEmitter 0 :=
  c6_remove_exact_idempotent NewEmitter 0 (fnOk 1) 5 9 0 42 0
    (by decide) (by decide) (by decide) (by decide)

/-! ### Claim C7 -/

/-- C7 (confirmed): registering the same callback value twice on the same
event of a fresh emitter yields two distinct handles and two invocations of
the callback per `Emit`; removing the first handle removes exactly one of
the two records: the count drops to 1 and `Emit` still invokes the callback
once. -/
theorem c7_double_registration (e : Nat) (v : GoValue)
    (hf : v.isFunc = true) (hv : v.callPanics = false) :
    (AddListener NewEmitter e v).handle ≠
      (AddListener (AddListener NewEmitter e v).state e v).handle ∧
    (Emit (AddListener (AddListener NewEmitter e v).state e v).state e).invoked =
      [v.idOf, v.idOf] ∧
    GetListenerCount
      (RemoveListener (AddListener (AddListener NewEmitter e v).state e v).state e
        (AddListener NewEmitter e v).handle) e = 1 ∧
    (Emit
      (RemoveListener (AddListener (AddListener NewEmitter e v).state e v).state e
        (AddListener NewEmitter e v).handle) e).invoked = [v.idOf] := by
  simp [AddListener, addListener, hf, hv, NewEmitter, setEvent, updateAssoc, getEvents,
    lookupEvent, lookupAssoc, uint32Mod, Emit, runUnits, runListenerUnit, RemoveListener,
    GetListenerCount]

/-- C7 witness: the theorem applied to event 0 and callback `fnOk 4`. -/
theorem c7_witness :
    (AddListener NewEmitter 0 (fnOk 4)).handle ≠
      (AddListener (AddListener NewEmitter 0 (fnOk 4)).state 0 (fnOk 4)).handle ∧
    (Emit (AddListener (AddListener NewEmitter 0 (fnOk 4)).state 0 (fnOk 4)).state 0).invoked =
      [(fnOk 4).idOf, (fnOk 4).idOf] ∧
    GetListenerCount
      (RemoveListener (AddListener (AddListener NewEmitter 0 (fnOk 4)).state 0 (fnOk 4)).state 0
        (AddListener NewEmitter 0 (fnOk 4)).handle) 0 = 1 ∧
    (Emit
      (RemoveListener (AddListener (AddListener NewEmitter 0 (fnOk 4)).state 0 (fnOk 4)).state 0
        (AddListener NewEmitter 0 (fnOk 4)).handle) 0).invoked = [(fnOk 4).idOf] :=
  c7_double_registration 0 (fnOk 4) (by decide) (by decide)

/-! ### Claim C8 -/

/-- C8 (confirmed): `EmitSync` invokes the listeners of a known event one
at a time, strictly in the order of the event's record list (registration
order, since `addListener` appends at the end — last conjunct), with no
crash; for an unknown event both `EmitSync` and `Emit` are complete
no-ops. -/
theorem c8_emitsync_order (em : Emitter) (e eu : Nat) (recs : List listenerRecord)
    (v : GoValue) (o : Bool) (e4 : Nat)
    (hlook : lookupEvent em e = some recs)
    (hnp : ∀ r ∈ recs, r.fn.callPanics = false)
    (hnone : lookupEvent em eu = none)
    (hv : (!v.isFunc && !em.hasRecoverer) = false) :
    (EmitSync em e).invoked = recs.map (fun r => r.fn.idOf) ∧
    (EmitSync em e).crashed = false ∧
    EmitSync em eu = { state := em, invoked := [], recCalls := [], crashed := false } ∧
    Emit em eu = { state := em, invoked := [], recCalls := [], crashed := false } ∧
    getEvents (addListener em e4 v o).state e4 =
      getEvents em e4 ++ [⟨v, (em.nextHandle + 1) % uint32Mod, o⟩] := by
  have hsync := runSyncUnits_no_panic e recs hnp em
  refine ⟨?_, ?_, ?_, ?_, ?_⟩
  · rw [EmitSync, hlook]
    exact hsync.1
  · rw [EmitSync, hlook]
    exact hsync.2
  · simp [EmitSync, hnone]
  · simp [Emit, hnone]
  · exact addListener_state_events_self em e4 v o hv

/-- C8 witness: the theorem applied to the two-listener fixture (records
with ids 1 and 2 on event 0), the unknown event 5, and a fresh append. -/
theorem c8_witness :
    (EmitSync emTwo 0).invoked =
      ([⟨fnOk 1, 1, false⟩, ⟨fnOk 2, 2, false⟩] : List listenerRecord).map
        (fun r => r.fn.idOf) ∧
    (EmitSync emTwo 0).crashed = false ∧
    EmitSync emTwo 5 = { state := emTwo, invoked := [], recCalls := [], crashed := false } ∧
    Emit emTwo 5 = { state := emTwo, invoked := [], recCalls := [], crashed := false } ∧
    getEvents (addListener emTwo 0 (fnOk 9) false).state 0 =
      getEvents emTwo 0 ++ [⟨fnOk 9, (emTwo.nextHandle + 1) % uint32Mod, false⟩] :=
  c8_emitsync_order emTwo 0 5 [⟨fnOk 1, 1, false⟩, ⟨fnOk 2, 2, false⟩] (fnOk 9) false 0
    (by decide) (by decide) (by decide) (by decide)

/-! ### Claim C9 -/

/-- C9 (confirmed): passing a non-function value to `AddListener` or `Once`
is reported at registration time: with no recovery hook the call panics
with `ErrNoneFunction` (state unchanged); with a hook installed, the hook
is invoked with the event, the listener value and `ErrNoneFunction`. -/
theorem c9_nonfunction_registration (em em2 : Emitter) (e : Nat) (v : GoValue)
    (hnf : v.isFunc = false) (hnr : em.hasRecoverer = false)
    (hr2 : em2.hasRecoverer = true) :
    (AddListener em e v).panicked = true ∧
    (AddListener em e v).panicErr = some GoErr.errNoneFunction ∧
    (AddListener em e v).state = em ∧
    (Once em e v).panicked = true ∧
    (Once em e v).panicErr = some GoErr.errNoneFunction ∧
    (AddListener em2 e v).panicked = false ∧
    (AddListener em2 e v).recovererCall = some (e, v, GoErr.errNoneFunction) ∧
    (Once em2 e v).recovererCall = some (e, v, GoErr.errNoneFunction) := by
  simp [AddListener, Once, addListener, hnf, hnr, hr2]

/-- C9 witness: the theorem applied to a fresh emitter (no hook), the same
emitter with the hook installed, event 0 and the non-function value 9. -/
theorem c9_witness :
    (AddListener NewEmitter 0 (GoValue.nonFunc 9)).panicked = true ∧
    (AddListener NewEmitter 0 (GoValue.nonFunc 9)).panicErr = some GoErr.errNoneFunction ∧
    (AddListener NewEmitter 0 (GoValue.nonFunc 9)).state = NewEmitter ∧
    (Once NewEmitter 0 (GoValue.nonFunc 9)).panicked = true ∧
    (Once NewEmitter 0 (GoValue.nonFunc 9)).panicErr = some GoErr.errNoneFunction ∧
    (AddListener (RecoverWith NewEmitter) 0 (GoValue.nonFunc 9)).panicked = false ∧
    (AddListener (RecoverWith NewEmitter) 0 (GoValue.nonFunc 9)).recovererCall =
      some (0, GoValue.nonFunc 9, GoErr.errNoneFunction) ∧
    (Once (RecoverWith NewEmitter) 0 (GoValue.nonFunc 9)).recovererCall =
      some (0, GoValue.nonFunc 9, GoErr.errNoneFunction) :=
  c9_nonfunction_registration NewEmitter (RecoverWith NewEmitter) 0 (GoValue.nonFunc 9)
    (by decide) (by decide) (by decide)

/-! ### Claim C10 -/

/-- C10 (confirmed): with a recovery hook installed, `AddListener` (and
`Once`) with a non-function value invokes the hook and then continues: it
does not panic, a fresh handle is allocated and returned, and the record is
still appended, so `GetListenerCount` for that event increases by one. -/
theorem c10_nonfunction_still_added (em : Emitter) (e : Nat) (v : GoValue)
    (hr : em.hasRecoverer = true) (hnf : v.isFunc = false) :
    (AddListener em e v).panicked = false ∧
    (AddListener em e v).recovererCall = some (e, v, GoErr.errNoneFunction) ∧
    (AddListener em e v).handle = (em.nextHandle + 1) % uint32Mod ∧
    GetListenerCount (AddListener em e v).state e = GetListenerCount em e + 1 ∧
    GetListenerCount (Once em e v).state e = GetListenerCount em e + 1 := by
  have hc : (!v.isFunc && !em.hasRecoverer) = false := by simp [hr]
  refine ⟨addListener_not_panicked _ _ _ _ hc, ?_, addListener_handle _ _ _ _ hc, ?_, ?_⟩
  · simp [AddListener, addListener, hnf, hr]
  · rw [AddListener, GetListenerCount, addListener_state_events_self _ _ _ _ hc]
    simp [GetListenerCount]
  · rw [Once, GetListenerCount, addListener_state_events_self _ _ _ _ hc]
    simp [GetListenerCount]

/-- C10 witness: the theorem applied to a fresh emitter with the hook
installed, event 0 and the non-function value 9. -/
theorem c10_witness :
    (AddListener (RecoverWith NewEmitter) 0 (GoValue.nonFunc 9)).panicked = false ∧
    (AddListener (RecoverWith NewEmitter) 0 (GoValue.nonFunc 9)).recovererCall =
      some (0, GoValue.nonFunc 9, GoErr.errNoneFunction) ∧
    (AddListener (RecoverWith NewEmitter) 0 (GoValue.nonFunc 9)).handle =
      ((RecoverWith NewEmitter).nextHandle + 1) % uint32Mod ∧
    GetListenerCount (AddListener (RecoverWith NewEmitter) 0 (GoValue.nonFunc 9)).state 0 =
      GetListenerCount (RecoverWith NewEmitter) 0 + 1 ∧
    GetListenerCount (Once (RecoverWith NewEmitter) 0 (GoValue.nonFunc 9)).state 0 =
      GetListenerCount (RecoverWith NewEmitter) 0 + 1 :=
  c10_nonfunction_still_added (RecoverWith NewEmitter) 0 (GoValue.nonFunc 9)
    (by decide) (by decide)

end Emission
